import Mathlib

/-!
Verification of the image-overlay service in `app.py`.

The embedding translates the source functions (`clamp_float`, `load_logo`,
`compute_position`, the `/overlay` handler `overlay_logo`) into Lean.
Python floats are modelled as rationals, Python `int()` truncation as
`pyInt`, and the out-of-scope image-library primitives (decode, resize,
alpha-channel scaling, alpha compositing, PNG encoding) as explicit
oracle parameters, except for the alpha-composite clipping behaviour,
which the spec fixes and which is modelled from the spec.
-/

/-- Error taxonomy: each constructor mirrors one `HTTPException` raise site
in `app.py`. -/
inductive Err where
  | missingBearer
  | invalidToken
  | invalidPosition
  | emptyUpload
  | invalidImageFormat
  | baseFetchFailed
  | missingBaseImage
  | logoNotFound
deriving DecidableEq, Repr

/-- HTTP status code attached to each raise site in `app.py`. -/
def Err.status : Err → Nat
  | .missingBearer => 401
  | .invalidToken => 403
  | _ => 400

/-- A decoded RGBA image: dimensions plus an abstract pixel map
(pixel values encoded as naturals). -/
structure Image where
  width : Nat
  height : Nat
  pix : Nat → Nat → Nat

def emptyImage : Image := ⟨0, 0, fun _ _ => 0⟩

/-- `clamp_float` from `app.py` (floats modelled as rationals). -/
def clamp_float (value lo hi : ℚ) : ℚ :=
  if value < lo then lo
  else if value > hi then hi
  else value

/-- The `POSITIONS` set from `app.py`. -/
def POSITIONS : List String :=
  ["top_left", "top_right", "bottom_left", "bottom_right", "center"]

/-- `compute_position` from `app.py`.  Python `//` is floor division,
hence `Int.fdiv`. -/
def compute_position (base_w base_h logo_w logo_h : Int) (position : String)
    (margin_px : Int) : Int × Int :=
  if position = "top_left" then (margin_px, margin_px)
  else if position = "top_right" then (base_w - logo_w - margin_px, margin_px)
  else if position = "bottom_left" then (margin_px, base_h - logo_h - margin_px)
  else if position = "center" then
    (Int.fdiv (base_w - logo_w) 2, Int.fdiv (base_h - logo_h) 2)
  else (base_w - logo_w - margin_px, base_h - logo_h - margin_px)

/-- Python `int()` on a float: truncation toward zero. -/
def pyInt (q : ℚ) : Int := if 0 ≤ q then ⌊q⌋ else ⌈q⌉

/-- `target_logo_w = max(1, int(base_w * sc))` from `app.py` line 124. -/
def target_logo_w (base_w : Nat) (sc : ℚ) : Nat :=
  (max 1 (pyInt ((base_w : ℚ) * sc))).toNat

/-- `ratio = target_logo_w / float(logo.size[0])` from `app.py` line 125. -/
def ratio_of (tw logo_w : Nat) : ℚ := (tw : ℚ) / (logo_w : ℚ)

/-- `target_logo_h = max(1, int(logo.size[1] * ratio))` from `app.py` line 126. -/
def target_logo_h (logo_h : Nat) (r : ℚ) : Nat :=
  (max 1 (pyInt ((logo_h : ℚ) * r))).toNat

/-- The height formula as the claim states it: `round(Ho × Wt / Wo)`
(`round` rounds half up in Mathlib; the comparison points avoid ties). -/
def claim_round_height (logo_h logo_w tw : Nat) : Int :=
  round (((logo_h * tw : Nat) : ℚ) / (logo_w : ℚ))

/-- Modelled from the spec: the image library's alpha-composite primitive
(`Image.alpha_composite` of the trusted library, outside `src/`), draws the
overlay at destination `(x, y)` with source-over blending, clipping silently
at the canvas bounds: the result keeps the base dimensions and pixels outside
the overlay footprint are the base's. The per-pixel source-over blend itself
stays an oracle `blend`. -/
def alpha_composite (base ov : Image) (x y : Int) (blend : Nat → Nat → Nat) :
    Image where
  width := base.width
  height := base.height
  pix := fun i j =>
    if x ≤ (i : Int) ∧ (i : Int) < x + ov.width ∧
        y ≤ (j : Int) ∧ (j : Int) < y + ov.height then
      blend (base.pix i j) (ov.pix ((i : Int) - x).toNat ((j : Int) - y).toNat)
    else base.pix i j

/-- Buffer-level model of `app.py` lines 143-144: the heap starts with the
caller's base buffer at index 0; `composed = base.copy()` allocates a new
buffer at index 1; `composed.alpha_composite(logo, (x, y))` mutates index 1
in place. -/
def composite_step (base ov : Image) (x y : Int) (blend : Nat → Nat → Nat) :
    List Image :=
  let heap : List Image := [base]
  let heap2 := heap ++ [heap.getD 0 emptyImage]
  heap2.set 1 (alpha_composite (heap2.getD 1 emptyImage) ov x y blend)

/-- Result of `load_logo`: the resolved image (or error) plus the list of
URLs actually fetched over the network. -/
structure LogoOutcome where
  result : Except Err Image
  fetched : List String

/-- `load_logo` from `app.py` lines 37-55.  `fetch_logo u` is the combined
outcome of `requests.get` + decode (`none` = any failure); `local_logo` is
the decoded image at the configured local path (`none` = the path does not
exist).  Python truthiness: `if logo_url:` is false for `None` and `""`. -/
def load_logo (logo_url : Option String) (fetch_logo : String → Option Image)
    (local_logo : Option Image) : LogoOutcome :=
  let tryLocal : Except Err Image :=
    match local_logo with
    | some img => .ok img
    | none => .error .logoNotFound
  match logo_url with
  | some u =>
    if u = "" then ⟨tryLocal, []⟩
    else
      match fetch_logo u with
      | some img => ⟨.ok img, [u]⟩
      | none => ⟨tryLocal, [u]⟩
  | none => ⟨tryLocal, []⟩

/-- Python whitespace for `str.strip()`. -/
def is_space (c : Char) : Bool :=
  c = ' ' ∨ c = '\t' ∨ c = '\n' ∨ c = '\r' ∨ c = '\x0b' ∨ c = '\x0c'

/-- Drop leading whitespace. -/
def lstrip_chars : List Char → List Char
  | [] => []
  | c :: cs => if is_space c then lstrip_chars cs else c :: cs

/-- Python `str.strip()`: drop whitespace at both ends. -/
def python_strip (s : String) : String :=
  ⟨lstrip_chars (lstrip_chars s.data.reverse).reverse⟩

/-- Python `str.lower()` on one character (ASCII range; the service's anchor
strings are ASCII). -/
def python_lower_char (c : Char) : Char :=
  if 'A' ≤ c ∧ c ≤ 'Z' then Char.ofNat (c.toNat + 32) else c

/-- Python `.strip().lower()` as applied on `app.py` line 86. -/
def python_strip_lower (s : String) : String :=
  ⟨(python_strip s).data.map python_lower_char⟩

/-- `require_token` from `app.py` lines 14-28.  An unset `RUNNER_TOKEN`
(empty string) skips auth; `auth.replace("Bearer ", "", 1).strip()` under the
`startswith` guard is dropping the 7-character prefix then stripping. -/
def require_token (expected : String) (auth : Option String) :
    Except Err Unit :=
  if expected = "" then .ok ()
  else
    match auth with
    | none => .error .missingBearer
    | some a =>
      if ¬ a.startsWith "Bearer " then .error .missingBearer
      else if python_strip (a.drop 7) ≠ expected then .error .invalidToken
      else .ok ()

/-- Environment-sourced configuration of `app.py` (values already parsed). -/
structure Env where
  runner_token : String
  default_position : String
  default_margin : Int
  default_scale : ℚ
  default_opacity : ℚ
  local_logo : Option Image

/-- `(position or os.getenv("DEFAULT_POSITION", "bottom_right")).strip().lower()`
from `app.py` line 86: Python `or` replaces both `None` and `""` by the
default. -/
def resolve_position (position : Option String) (env : Env) : String :=
  python_strip_lower
    (match position with
     | some s => if s = "" then env.default_position else s
     | none => env.default_position)

/-- Normalised request parameters (`pos`, `margin`, `sc`, `op` of the
handler). -/
structure Params where
  pos : String
  margin : Int
  sc : ℚ
  op : ℚ
deriving DecidableEq, Repr

/-- Parameter validation and clamping, `app.py` lines 86-98. -/
def normalize_params (position : Option String) (margin_px : Option Int)
    (scale opacity : Option ℚ) (env : Env) : Except Err Params :=
  let pos := resolve_position position env
  if pos ∈ POSITIONS then
    .ok
      { pos := pos
        margin :=
          let m := margin_px.getD env.default_margin
          if m < 0 then 0 else m
        sc := clamp_float (scale.getD env.default_scale) (3 / 100) (4 / 5)
        op := clamp_float (opacity.getD env.default_opacity) (1 / 20) 1 }
  else .error .invalidPosition

/-- The `/overlay` multipart form fields plus the `Authorization` header. -/
structure Request where
  image : Option (List Nat)
  image_url : Option String
  logo_url : Option String
  position : Option String
  margin_px : Option Int
  scale : Option ℚ
  opacity : Option ℚ
  authorization : Option String

/-- The trusted image-library and network collaborators, as deterministic
oracles: fetch+decode of the base and logo URLs, decode of uploaded bytes,
the resized pixel content, the alpha-scaled pixel content, source-over pixel
blending, and PNG encoding. -/
structure Oracles where
  fetch_base : String → Option Image
  fetch_logo : String → Option Image
  decode_upload : List Nat → Option Image
  resize_pix : Image → Nat → Nat → Nat → Nat → Nat
  opacity_pix : Image → ℚ → Nat → Nat → Nat
  blend : Nat → Nat → Nat
  encode_png : Image → List Nat

/-- Handler outcome: the HTTP-level result (PNG bytes or error) and the
outbound GET URLs issued, in order. -/
structure HandlerOut where
  result : Except Err (List Nat)
  calls : List String

/-- `app.py` lines 121-153: logo resolution, resize (the library returns
exactly the requested dimensions; its pixel content is the oracle), opacity
alpha-scaling when `op < 1`, position computation on the resized dimensions,
copy-then-composite, PNG encode. -/
def overlay_core (base : Image) (calls0 : List String)
    (logo_url : Option String) (p : Params) (env : Env) (O : Oracles) :
    HandlerOut :=
  let lr := load_logo logo_url O.fetch_logo env.local_logo
  match lr.result with
  | .error e => ⟨.error e, calls0 ++ lr.fetched⟩
  | .ok logo =>
    let base_w := base.width
    let base_h := base.height
    let tw := target_logo_w base_w p.sc
    let th := target_logo_h logo.height (ratio_of tw logo.width)
    let resized : Image := ⟨tw, th, O.resize_pix logo tw th⟩
    let shaded : Image :=
      if p.op < 1 then ⟨tw, th, O.opacity_pix resized p.op⟩ else resized
    let xy := compute_position (base_w : Int) (base_h : Int)
      (shaded.width : Int) (shaded.height : Int) p.pos p.margin
    let heap := composite_step base shaded xy.1 xy.2 O.blend
    let composed := heap.getD 1 emptyImage
    ⟨.ok (O.encode_png composed), calls0 ++ lr.fetched⟩

/-- The `/overlay` handler `overlay_logo` from `app.py` lines 73-153:
auth, parameter normalisation, base-image resolution (upload takes
precedence; `elif image_url:` is Python-falsy for `""`), then
`overlay_core`. -/
def overlay_logo (req : Request) (env : Env) (O : Oracles) : HandlerOut :=
  match require_token env.runner_token req.authorization with
  | .error e => ⟨.error e, []⟩
  | .ok _ =>
    match normalize_params req.position req.margin_px req.scale req.opacity
        env with
    | .error e => ⟨.error e, []⟩
    | .ok p =>
      match req.image with
      | some raw =>
        if raw = [] then ⟨.error .emptyUpload, []⟩
        else
          match O.decode_upload raw with
          | none => ⟨.error .invalidImageFormat, []⟩
          | some base => overlay_core base [] req.logo_url p env O
      | none =>
        match req.image_url with
        | some u =>
          if u = "" then ⟨.error .missingBaseImage, []⟩
          else
            match O.fetch_base u with
            | none => ⟨.error .baseFetchFailed, [u]⟩
            | some base => overlay_core base [u] req.logo_url p env O
        | none => ⟨.error .missingBaseImage, []⟩

/-- The source's environment defaults: no token, `bottom_right`, margin 24,
scale 0.18, opacity 0.95, no local logo file. -/
def env0 : Env :=
  { runner_token := ""
    default_position := "bottom_right"
    default_margin := 24
    default_scale := 18 / 100
    default_opacity := 95 / 100
    local_logo := none }

/-- A tiny concrete image for concrete evaluations. -/
def img0 : Image := ⟨2, 2, fun _ _ => 7⟩

/-- Trivial concrete oracles for concrete evaluations. -/
def O0 : Oracles :=
  { fetch_base := fun _ => none
    fetch_logo := fun _ => none
    decode_upload := fun _ => some img0
    resize_pix := fun _ _ _ _ _ => 0
    opacity_pix := fun _ _ _ _ => 0
    blend := fun _ b => b
    encode_png := fun _ => [137, 80, 78, 71] }

/-- C1: `compute_position` maps top_left to (m, m); top_right to
(base_w − overlay_w − m, m); bottom_left to (m, base_h − overlay_h − m);
center to the floor-divided midpoints; and bottom_right together with every
unrecognized anchor to (base_w − overlay_w − m, base_h − overlay_h − m);
in particular base 1000×800, overlay 180×90, margin 24, bottom_right gives
(796, 686). -/
theorem C1_compute_position (bw bh ow oh m : Int) :
    compute_position bw bh ow oh "top_left" m = (m, m) ∧
    compute_position bw bh ow oh "top_right" m = (bw - ow - m, m) ∧
    compute_position bw bh ow oh "bottom_left" m = (m, bh - oh - m) ∧
    compute_position bw bh ow oh "center" m =
      (Int.fdiv (bw - ow) 2, Int.fdiv (bh - oh) 2) ∧
    (∀ pos : String, pos ≠ "top_left" → pos ≠ "top_right" →
      pos ≠ "bottom_left" → pos ≠ "center" →
      compute_position bw bh ow oh pos m = (bw - ow - m, bh - oh - m)) ∧
    compute_position 1000 800 180 90 "bottom_right" 24 = (796, 686) := by
  refine ⟨by simp [compute_position], by simp [compute_position],
    by simp [compute_position], by simp [compute_position],
    fun pos h1 h2 h3 h4 => ?_, by decide⟩
  simp [compute_position, h1, h2, h3, h4]

/-- C1 witness: the default branch at a concrete unrecognized anchor. -/
theorem C1_compute_position_witness :
    compute_position 5 7 2 3 "middle" 1 = (5 - 2 - 1, 7 - 3 - 1) :=
  (C1_compute_position 5 7 2 3 1).2.2.2.2.1 "middle" (by decide) (by decide)
    (by decide) (by decide)

/-- Helper: the clamped value lies in the closed interval. -/
theorem clamp_float_mem (v lo hi : ℚ) (h : lo ≤ hi) :
    lo ≤ clamp_float v lo hi ∧ clamp_float v lo hi ≤ hi := by
  unfold clamp_float
  split_ifs with h1 h2 <;> constructor <;> linarith

/-- Helper: an in-range value is unchanged by the clamp. -/
theorem clamp_float_id (v lo hi : ℚ) (h1 : lo ≤ v) (h2 : v ≤ hi) :
    clamp_float v lo hi = v := by
  unfold clamp_float
  split_ifs with g1 g2 <;> first | rfl | linarith

/-- C2 counterexample: with base width 1, clamped scale 1/2, and an original
overlay of size 3×5, the code's target height is 1 while the claim's
`round(Ho × Wt/Wo) = round(5/3)` is 2. -/
theorem C2_counterexample :
    target_logo_h 5 (ratio_of (target_logo_w 1 (1 / 2)) 3) = 1 ∧
    claim_round_height 5 3 (target_logo_w 1 (1 / 2)) = 2 ∧
    (1 : Nat) ≠ 2 := by
  have e0 : target_logo_w 1 (1 / 2) = 1 := by
    simp only [target_logo_w, pyInt]
    norm_num
  refine ⟨?_, ?_, by decide⟩
  · simp only [target_logo_h, ratio_of, e0, pyInt, Nat.cast_one]
    norm_num
  · simp only [claim_round_height, e0]
    rw [round_eq]
    norm_num

/-- C2 (amended): for every base width, nonnegative (clamped) scale and
original overlay size (Wo, Ho) with Wo > 0, the code computes
`Wt = max(1, floor(base_w × scale))` and target height
`= max(1, floor(Ho × Wt / Wo))` (floor, not round), and both are ≥ 1. -/
theorem C2_resize_floors (base_w Wo Ho : Nat) (sc : ℚ) (h0 : 0 ≤ sc)
    (hw : 0 < Wo) :
    target_logo_w base_w sc = (max 1 ⌊(base_w : ℚ) * sc⌋).toNat ∧
    target_logo_h Ho (ratio_of (target_logo_w base_w sc) Wo) =
      (max 1 ⌊((Ho : ℚ) * (target_logo_w base_w sc : ℚ)) / (Wo : ℚ)⌋).toNat ∧
    1 ≤ target_logo_w base_w sc ∧
    1 ≤ target_logo_h Ho (ratio_of (target_logo_w base_w sc) Wo) := by
  have hb : (0 : ℚ) ≤ (base_w : ℚ) * sc :=
    mul_nonneg (by positivity) h0
  have hwq : (0 : ℚ) < (Wo : ℚ) := by exact_mod_cast hw
  have hr : (0 : ℚ) ≤ (Ho : ℚ) * ratio_of (target_logo_w base_w sc) Wo := by
    unfold ratio_of
    positivity
  have e1 : target_logo_w base_w sc = (max 1 ⌊(base_w : ℚ) * sc⌋).toNat := by
    unfold target_logo_w pyInt
    rw [if_pos hb]
  have e2 : (Ho : ℚ) * ratio_of (target_logo_w base_w sc) Wo =
      ((Ho : ℚ) * (target_logo_w base_w sc : ℚ)) / (Wo : ℚ) := by
    unfold ratio_of
    ring
  have one_le : ∀ z : Int, 1 ≤ (max 1 z).toNat := by
    intro z
    have h1 : (1 : Int) ≤ max 1 z := le_max_left _ _
    exact Int.toNat_le_toNat h1
  refine ⟨e1, ?_, ?_, ?_⟩
  · unfold target_logo_h pyInt
    rw [if_pos hr, e2]
  · exact one_le _
  · unfold target_logo_h pyInt
    rw [if_pos hr]
    exact one_le _

/-- C2 witness: the spec's own worked example — base width 1000, scale 0.18,
logo 200×100 — gives target width 180 and target height 90, both ≥ 1. -/
theorem C2_resize_floors_witness :
    target_logo_w 1000 (18 / 100) = (max 1 ⌊(1000 : ℚ) * (18 / 100)⌋).toNat ∧
    target_logo_h 100 (ratio_of (target_logo_w 1000 (18 / 100)) 200) =
      (max 1 ⌊((100 : ℚ) * (target_logo_w 1000 (18 / 100) : ℚ)) /
        (200 : ℚ)⌋).toNat ∧
    1 ≤ target_logo_w 1000 (18 / 100) ∧
    1 ≤ target_logo_h 100 (ratio_of (target_logo_w 1000 (18 / 100)) 200) :=
  C2_resize_floors 1000 200 100 (18 / 100) (by norm_num) (by decide)

/-- C3: whenever the (possibly defaulted) position is valid, the normalizer
accepts the request for every supplied margin, scale and opacity: scale is
clamped into [0.03, 0.80] (unchanged when in range), opacity into
[0.05, 1.00] (unchanged when in range), a negative margin becomes 0, and the
result is `.ok` — never a rejection. -/
theorem C3_param_clamping (env : Env) (position : Option String) (mv : Int)
    (sv ov : ℚ) (hpos : resolve_position position env ∈ POSITIONS) :
    normalize_params position (some mv) (some sv) (some ov) env =
      .ok { pos := resolve_position position env
            margin := if mv < 0 then 0 else mv
            sc := clamp_float sv (3 / 100) (4 / 5)
            op := clamp_float ov (1 / 20) 1 } ∧
    (3 / 100 ≤ clamp_float sv (3 / 100) (4 / 5) ∧
      clamp_float sv (3 / 100) (4 / 5) ≤ 4 / 5) ∧
    (3 / 100 ≤ sv → sv ≤ 4 / 5 → clamp_float sv (3 / 100) (4 / 5) = sv) ∧
    (1 / 20 ≤ clamp_float ov (1 / 20) 1 ∧ clamp_float ov (1 / 20) 1 ≤ 1) ∧
    (1 / 20 ≤ ov → ov ≤ 1 → clamp_float ov (1 / 20) 1 = ov) ∧
    (mv < 0 → (if mv < 0 then (0 : Int) else mv) = 0) ∧
    0 ≤ (if mv < 0 then (0 : Int) else mv) := by
  refine ⟨?_, clamp_float_mem sv _ _ (by norm_num),
    clamp_float_id sv _ _, clamp_float_mem ov _ _ (by norm_num),
    clamp_float_id ov _ _, fun h => if_pos h, ?_⟩
  · simp only [normalize_params, if_pos hpos, Option.getD]
  · split_ifs with h
    · exact le_refl 0
    · omega

/-- C3 witness: margin −5, scale 1.5 and opacity 0 are all accepted and
clamped to 0, 0.80 and 0.05 under the default position. -/
theorem C3_param_clamping_witness :
    normalize_params none (some (-5)) (some (3 / 2)) (some 0) env0 =
      .ok { pos := resolve_position none env0
            margin := if (-5 : Int) < 0 then 0 else -5
            sc := clamp_float (3 / 2) (3 / 100) (4 / 5)
            op := clamp_float 0 (1 / 20) 1 } :=
  (C3_param_clamping env0 none (-5) (3 / 2) 0 (by decide)).1

/-- C4 counterexample: a supplied empty-string position is not one of the
five anchors (and stays empty after strip/lower), yet the request is not
rejected — Python `or` treats `""` as absent and substitutes the default. -/
theorem C4_counterexample :
    normalize_params (some "") none none none env0 =
      .ok { pos := "bottom_right"
            margin := 24
            sc := clamp_float (18 / 100) (3 / 100) (4 / 5)
            op := clamp_float (95 / 100) (1 / 20) 1 } ∧
    "" ∉ POSITIONS ∧ python_strip_lower "" = "" := by
  refine ⟨rfl, by decide, by decide⟩

/-- C4 (amended): for every supplied non-empty position string, the value is
stripped and lower-cased and checked against the five anchors; any other
value fails with `InvalidParameter` (HTTP 400), and each of the five valid
values never triggers this failure.  (A supplied empty string is instead
treated as absent and replaced by the configured default.) -/
theorem C4_position_validation (s : String) (env : Env) (m : Option Int)
    (sc op : Option ℚ) (hne : s ≠ "") :
    (python_strip_lower s ∉ POSITIONS →
      normalize_params (some s) m sc op env = .error .invalidPosition) ∧
    (python_strip_lower s ∈ POSITIONS →
      ∃ p : Params, normalize_params (some s) m sc op env = .ok p ∧
        p.pos = python_strip_lower s) ∧
    Err.invalidPosition.status = 400 ∧
    (∀ v ∈ POSITIONS, ∃ p : Params,
      normalize_params (some v) m sc op env = .ok p) := by
  have hrp : resolve_position (some s) env = python_strip_lower s := by
    simp [resolve_position, hne]
  refine ⟨fun hnot => ?_, fun hmem => ?_, rfl, fun v hv => ?_⟩
  · simp [normalize_params, hrp, hnot]
  · refine ⟨⟨python_strip_lower s,
      if m.getD env.default_margin < 0 then 0 else m.getD env.default_margin,
      clamp_float (sc.getD env.default_scale) (3 / 100) (4 / 5),
      clamp_float (op.getD env.default_opacity) (1 / 20) 1⟩, ?_, rfl⟩
    simp [normalize_params, hrp, hmem]
  · have hv' : v = "top_left" ∨ v = "top_right" ∨ v = "bottom_left" ∨
        v = "bottom_right" ∨ v = "center" := by
      simpa [POSITIONS] using hv
    have hne' : v ≠ "" := by
      rcases hv' with h | h | h | h | h <;> subst h <;> decide
    have hnorm : python_strip_lower v = v := by
      rcases hv' with h | h | h | h | h <;> subst h <;> decide
    have hrpv : resolve_position (some v) env = v := by
      simp [resolve_position, hne', hnorm]
    refine ⟨⟨v,
      if m.getD env.default_margin < 0 then 0 else m.getD env.default_margin,
      clamp_float (sc.getD env.default_scale) (3 / 100) (4 / 5),
      clamp_float (op.getD env.default_opacity) (1 / 20) 1⟩, ?_⟩
    simp [normalize_params, hrpv, hv]

/-- C4 witness: the unrecognized value "MIDDLE" (normalised to "middle")
is rejected with `InvalidParameter`. -/
theorem C4_position_validation_witness :
    normalize_params (some "MIDDLE") none none none env0 =
      .error .invalidPosition :=
  (C4_position_validation "MIDDLE" env0 none none none (by decide)).1
    (by decide)

/-- Helper: once the logo resolves, the compositing tail of the handler
always produces PNG bytes. -/
theorem overlay_core_ok (base : Image) (calls0 : List String)
    (lu : Option String) (p : Params) (env : Env) (O : Oracles) (img : Image)
    (h : (load_logo lu O.fetch_logo env.local_logo).result = .ok img) :
    ∃ png, (overlay_core base calls0 lu p env O).result = .ok png := by
  simp only [overlay_core, h]
  exact ⟨_, rfl⟩

/-- C5: logo resolution is the fallback chain remote → local → error: a
successful fetch is used; on fetch failure the resolver falls through to the
local file, and the request as a whole still succeeds when the local image
exists (shown on the full handler); only when neither yields an image does
it fail with `LogoNotFound`. -/
theorem C5_logo_fallback_chain (u : String) (fetch : String → Option Image)
    (local_logo : Option Image) (hu : u ≠ "") :
    (∀ img, fetch u = some img →
      load_logo (some u) fetch local_logo = ⟨.ok img, [u]⟩) ∧
    (fetch u = none → ∀ img, local_logo = some img →
      load_logo (some u) fetch local_logo = ⟨.ok img, [u]⟩) ∧
    (fetch u = none → local_logo = none →
      load_logo (some u) fetch local_logo = ⟨.error .logoNotFound, [u]⟩) ∧
    (∀ (req : Request) (env : Env) (O : Oracles) (raw : List Nat)
        (base limg : Image),
      req.image = some raw → raw ≠ [] → O.decode_upload raw = some base →
      req.logo_url = some u → O.fetch_logo = fetch → fetch u = none →
      env.local_logo = some limg →
      require_token env.runner_token req.authorization = .ok () →
      resolve_position req.position env ∈ POSITIONS →
      ∃ png, (overlay_logo req env O).result = .ok png) := by
  refine ⟨fun img hf => ?_, fun hf img hl => ?_, fun hf hl => ?_,
    fun req env O raw base limg h1 h2 h3 h4 h5 h6 h7 h8 h9 => ?_⟩
  · simp [load_logo, hu, hf]
  · simp [load_logo, hu, hf, hl]
  · simp [load_logo, hu, hf, hl]
  · rcases hnp : normalize_params req.position req.margin_px req.scale
        req.opacity env with e | p
    · rw [normalize_params, if_pos h9] at hnp
      exact absurd hnp (by simp)
    · have hov : overlay_logo req env O =
          overlay_core base [] req.logo_url p env O := by
        simp [overlay_logo, h1, h2, h3, h8, hnp]
      rw [hov, h4]
      exact overlay_core_ok base [] (some u) p env O limg
        (by simp [load_logo, hu, h5, h6, h7])

/-- C5 witness: fetch failure plus an existing local file resolves to the
local image. -/
theorem C5_logo_fallback_chain_witness :
    load_logo (some "u1") (fun _ => none) (some img0) =
      ⟨.ok img0, ["u1"]⟩ :=
  (C5_logo_fallback_chain "u1" (fun _ => none) (some img0) (by decide)).2.1
    rfl img0 rfl

/-- The all-absent request: no upload, no URLs, no parameters, no auth
header. -/
def req0 : Request :=
  ⟨none, none, none, none, none, none, none, none⟩

/-- C6: with neither an upload nor an image_url supplied (absent or empty),
a request that passes auth and position validation fails with
`MissingBaseImage` and the handler performs no outbound call at all. -/
theorem C6_missing_base_no_calls (req : Request) (env : Env) (O : Oracles)
    (h1 : req.image = none)
    (h2 : req.image_url = none ∨ req.image_url = some "")
    (h3 : require_token env.runner_token req.authorization = .ok ())
    (h4 : resolve_position req.position env ∈ POSITIONS) :
    (overlay_logo req env O).result = .error .missingBaseImage ∧
    (overlay_logo req env O).calls = [] := by
  have h : overlay_logo req env O = ⟨.error .missingBaseImage, []⟩ := by
    rcases h2 with h2 | h2 <;>
      simp [overlay_logo, h1, h2, h3, normalize_params, h4]
  rw [h]
  exact ⟨rfl, rfl⟩

/-- C6 witness: the empty request against the default environment. -/
theorem C6_missing_base_no_calls_witness :
    (overlay_logo req0 env0 O0).result = .error .missingBaseImage ∧
    (overlay_logo req0 env0 O0).calls = [] :=
  C6_missing_base_no_calls req0 env0 O0 rfl (Or.inl rfl) rfl (by decide)

/-- Parameters as normalised from the source defaults. -/
def p0 : Params := ⟨"bottom_right", 24, 18 / 100, 95 / 100⟩

/-- The default environment with a local logo file present. -/
def envL : Env := { env0 with local_logo := some img0 }

/-- C7: the geometry layer can produce negative coordinates (10×10 base,
1×1 overlay, default margin 24, bottom_right gives (−15, −15)); the
composite keeps the base canvas dimensions, leaves every pixel outside the
overlay footprint untouched (silent clipping), and — whatever coordinates
the Geometry Calculator produced — the compositing tail of the handler
never fails once both images are resolved. -/
theorem C7_clipping_tolerated :
    compute_position 10 10 1 1 "bottom_right" 24 = (-15, -15) ∧
    (∀ (base ov : Image) (x y : Int) (blend : Nat → Nat → Nat),
      (alpha_composite base ov x y blend).width = base.width ∧
      (alpha_composite base ov x y blend).height = base.height) ∧
    (∀ (base ov : Image) (x y : Int) (blend : Nat → Nat → Nat) (i j : Nat),
      ¬(x ≤ (i : Int) ∧ (i : Int) < x + ov.width ∧ y ≤ (j : Int) ∧
          (j : Int) < y + ov.height) →
      (alpha_composite base ov x y blend).pix i j = base.pix i j) ∧
    (∀ (base : Image) (calls0 : List String) (p : Params) (env : Env)
        (O : Oracles) (limg : Image), env.local_logo = some limg →
      ∃ png, (overlay_core base calls0 none p env O).result = .ok png) := by
  refine ⟨by decide, fun base ov x y blend => ⟨rfl, rfl⟩,
    fun base ov x y blend i j h => ?_,
    fun base calls0 p env O limg hl => ?_⟩
  · simp [alpha_composite, h]
  · exact overlay_core_ok base calls0 none p env O limg
      (by simp [load_logo, hl])

/-- C7 witness: a 2×2 base with the default bottom_right/margin-24
parameters (placement (−23, −23)) still composites successfully. -/
theorem C7_clipping_tolerated_witness :
    ∃ png, (overlay_core img0 [] none p0 envL O0).result = .ok png :=
  C7_clipping_tolerated.2.2.2 img0 [] p0 envL O0 img0 rfl

/-- C8: the compositing step operates on a freshly copied buffer: after
`composed = base.copy()` and the in-place composite, the caller's base
buffer (heap slot 0) still holds the original image, while the working
buffer (heap slot 1) holds the composite. -/
theorem C8_base_buffer_unmodified (base ov : Image) (x y : Int)
    (blend : Nat → Nat → Nat) :
    (composite_step base ov x y blend).getD 0 emptyImage = base ∧
    (composite_step base ov x y blend).getD 1 emptyImage =
      alpha_composite base ov x y blend :=
  ⟨rfl, rfl⟩

/-- C9: the pipeline is deterministic: two runs of the handler on identical
inputs (same request, environment, and deterministic library oracles)
produce byte-identical PNG results and identical outbound calls. -/
theorem C9_deterministic (r1 r2 : Request) (env : Env) (O : Oracles)
    (h : r1 = r2) :
    (overlay_logo r1 env O).result = (overlay_logo r2 env O).result ∧
    (overlay_logo r1 env O).calls = (overlay_logo r2 env O).calls := by
  subst h
  exact ⟨rfl, rfl⟩

/-- C9 witness: two runs on the empty request agree. -/
theorem C9_deterministic_witness :
    (overlay_logo req0 env0 O0).result = (overlay_logo req0 env0 O0).result ∧
    (overlay_logo req0 env0 O0).calls = (overlay_logo req0 env0 O0).calls :=
  C9_deterministic req0 req0 env0 O0 rfl

/-- C10: an empty-string logo_url is Python-falsy, so `load_logo` performs
no fetch at all (its outcome is that of a fetch-free run, for any fetch
oracle), resolves via the local fallback when present, and fails with
`LogoNotFound` only when the local file is absent. -/
theorem C10_empty_logo_url_skips_fetch (fetch g : String → Option Image)
    (local_logo : Option Image) :
    (load_logo (some "") fetch local_logo).fetched = [] ∧
    load_logo (some "") fetch local_logo = load_logo none g local_logo ∧
    (∀ img, local_logo = some img →
      (load_logo (some "") fetch local_logo).result = .ok img) ∧
    (local_logo = none →
      (load_logo (some "") fetch local_logo).result = .error .logoNotFound) := by
  refine ⟨rfl, rfl, fun img hl => ?_, fun hl => ?_⟩ <;> simp [load_logo, hl]

/-- C10 witness: even with a fetch oracle that would succeed, the empty URL
resolves via the local file. -/
theorem C10_empty_logo_url_skips_fetch_witness :
    (load_logo (some "") (fun _ => some emptyImage) (some img0)).result =
      .ok img0 :=
  (C10_empty_logo_url_skips_fetch (fun _ => some emptyImage) (fun _ => none)
    (some img0)).2.2.1 img0 rfl
